import Mathlib

/-
Shallow embedding of the PingMePy client request layer
(src/PingMePy/PingMeClient.py).

Modelling conventions:
- Python values that flow through validation and request building are
  modelled by `PyVal` (None, str, int, bool, dict, list).  Python 2's
  `unicode`/`str` pair both map to `PyVal.str`; `long` maps to `PyVal.int`.
- Raised Python exceptions are modelled by `PyErr`; `Exception(msg)` raised
  by the validators maps to `PyErr.exn msg`.
- `urljoin(base, rel)` is modelled as string concatenation: every call site
  joins a base URL ending in '/' with a relative path that has no leading
  '/', no scheme and no dot segments, for which RFC 3986 resolution is
  exactly concatenation.
- `str.format` is modelled by `pyFormat`, a character-level scanner with the
  CPython field rules the call sites exercise: `\x7b\x7b`/`\x7d\x7d` are
  literal braces, a field whose name is a run of digits is a positional
  lookup, any other field name is looked up among keyword arguments (none
  are ever passed at a call site, so it raises KeyError), and a lone brace
  raises ValueError.  Fields carrying a conversion or format spec never
  resolve at the embedded call sites (their field names are non-numeric and
  error first); that branch is marked unreachable.
- Each client method is translated statement by statement.  An operation
  returns an `OpOutcome`: the list of HTTP requests handed to the transport
  (in order), the returned value or raised error, and the post-state of the
  client object.  The transport (`requests` + digest auth) is an external
  collaborator, modelled as a function from a request to a decoded JSON
  document or a raised transport failure.
-/

inductive PyVal where
  | none
  | str (s : String)
  | int (n : Int)
  | bool (b : Bool)
  | dict (entries : List (String × PyVal))
  | list (xs : List PyVal)

/-- Python type name of a value, as it appears in AttributeError messages.
`NoneType` is unreachable in those messages (the `val is None` test
short-circuits first) but is included for totality. -/
def pyTypeName : PyVal → String
  | .none => "NoneType"
  | .str _ => "str"
  | .int _ => "int"
  | .bool _ => "bool"
  | .dict _ => "dict"
  | .list _ => "list"

/-- Python `str(v)` for the values that reach `.format` arguments and error
messages at the embedded call sites (None, strings, ints, bools).  Dicts and
lists never reach a format argument in the embedded methods (they fail
string validation with AttributeError first), so their exact rendering is
immaterial; a placeholder is used. -/
def pyStr : PyVal → String
  | .none => "None"
  | .str s => s
  | .int n => toString n
  | .bool b => if b then "True" else "False"
  | .dict _ => "<dict>"
  | .list _ => "<list>"

inductive PyErr where
  | exn (msg : String)
  | attributeError (msg : String)
  | typeError (msg : String)
  | keyError (key : String)
  | indexError (msg : String)
  | valueError (msg : String)
  | transportFailure (msg : String)

/--
`PingMeClient.__is_string` (PingMeClient.py lines 2037-2040):

  return (isinstance(val, unicode) or isinstance(val, str)) or val is None
      or val == '' or val.isspace()

Evaluated left to right with short-circuiting: any string (empty and
all-whitespace included) yields True at the isinstance disjunct; None yields
True at `val is None`; every other value fails the first three disjuncts
(in Python 2, `val == ''` is False for non-strings) and then evaluates
`val.isspace()`, which raises AttributeError since int/bool/dict/list have
no `isspace` attribute.  The function never returns False.
-/
def is_string (val : PyVal) : Except PyErr Bool :=
  match val with
  | .str _ => Except.ok true
  | .none => Except.ok true
  | v => Except.error (.attributeError
      ("'" ++ pyTypeName v ++ "' object has no attribute 'isspace'"))

/-- `PingMeClient.__is_int` (lines 2042-2044): `isinstance(val, (int, long))`.
In Python, `bool` is a subclass of `int`, so booleans pass. -/
def is_int (val : PyVal) : Bool :=
  match val with
  | .int _ => true
  | .bool _ => true
  | _ => false

/-- `PingMeClient.__test_parameter_for_string` (lines 2054-2057). The
`raise` branch is unreachable because `__is_string` never returns False;
it is kept for fidelity. -/
def test_parameter_for_string (param : PyVal) (param_name : String) :
    Except PyErr Unit :=
  match is_string param with
  | Except.error e => Except.error e
  | Except.ok true => Except.ok ()
  | Except.ok false =>
      Except.error (.exn (param_name ++ " must be a string and not empty."))

/-- `PingMeClient.__test_parameter_for_int` (lines 2059-2062). -/
def test_parameter_for_int (param : PyVal) (param_name : String) :
    Except PyErr Unit :=
  if is_int param then Except.ok ()
  else Except.error (.exn (param_name ++ " must be an integer and not empty."))

/--
`PingMeClient.__test_parameter_for_dictionary` (lines 2069-2072):

  if not isinstance(param, dict) or param is None or len(param) == 0:
      raise Exception(str.format('\x7b0\x7d must be a dictionary and not empty.'), param_name)

When the test fires, building the exception evaluates
`str.format('...')` with zero positional arguments, so the `\x7b0\x7d` field
raises IndexError before the Exception is constructed.
-/
def test_parameter_for_dictionary (param : PyVal) (_param_name : String) :
    Except PyErr Unit :=
  match param with
  | .dict es =>
      if es.length = 0 then Except.error (.indexError "tuple index out of range")
      else Except.ok ()
  | _ => Except.error (.indexError "tuple index out of range")

/--
`PingMeClient.__test_parameter_is_value` (lines 2080-2084):

  if param is not True:
      raise Exception(str.format('\x7b0\x7d is \x7b1\x7d, expected value is \x7b2\x7d.',
                                 param_name, param, expected_val))

The test compares `param` against the literal `True` by identity and never
consults `expected_val`: only the boolean True passes.
-/
def test_parameter_is_value (param : PyVal) (param_name : String)
    (expected_val : PyVal) : Except PyErr Unit :=
  match param with
  | .bool true => Except.ok ()
  | p => Except.error (.exn (param_name ++ " is " ++ pyStr p ++
      ", expected value is " ++ pyStr expected_val ++ "."))

/-- Python dict subscript `d[k]`: KeyError when the key is absent.  The
non-dict case (TypeError) is unreachable at the embedded call sites, where
subscripting always follows a dictionary test. -/
def pyGetItem (v : PyVal) (k : String) : Except PyErr PyVal :=
  match v with
  | .dict es =>
      match es.find? (fun p => p.fst = k) with
      | some p => Except.ok p.snd
      | Option.none => Except.error (.keyError k)
  | w => Except.error (.typeError
      ("'" ++ pyTypeName w ++ "' object is not subscriptable"))

/-- Python `d.get(k, default)` / `d.get(k)` (default None): returns the
default when the key is absent; raises AttributeError on non-dicts. -/
def pyDictGet (v : PyVal) (k : String) (dflt : PyVal) : Except PyErr PyVal :=
  match v with
  | .dict es =>
      match es.find? (fun p => p.fst = k) with
      | some p => Except.ok p.snd
      | Option.none => Except.ok dflt
  | w => Except.error (.attributeError
      ("'" ++ pyTypeName w ++ "' object has no attribute 'get'"))

/-- Python `a += b` on the values that reach `get_agents`' accumulation:
list extends by list.  A None accumulator (a response without 'results') or
a non-list right-hand side raises TypeError, matching `None + list` /
`list + non-iterable` in the source's `agents += ...` statements. -/
def pyIAdd (a b : PyVal) : Except PyErr PyVal :=
  match a, b with
  | .list xs, .list ys => Except.ok (.list (xs ++ ys))
  | .list _, w => Except.error (.typeError
      ("can only concatenate list (not \"" ++ pyTypeName w ++ "\") to list"))
  | w, _ => Except.error (.typeError
      ("unsupported operand type(s) for +=: '" ++ pyTypeName w ++ "' and 'list'"))

/-- Python `==` between a value and a string literal (used on the
`authMechanismName` discriminator): equal exactly when the value is that
string; values of other types compare unequal without error. -/
def pyEqStr (v : PyVal) (s : String) : Bool :=
  match v with
  | .str t => t = s
  | _ => false

/-- Reads a replacement-field name: the characters up to the first `\x7d`,
`:` or `!`, returned together with the unconsumed remainder (which starts at
that delimiter when one was found). -/
def readFieldName : List Char → List Char × List Char
  | [] => ([], [])
  | c :: cs =>
    if c = '\x7d' ∨ c = ':' ∨ c = '!' then ([], c :: cs)
    else
      let r := readFieldName cs
      (c :: r.1, r.2)

/-- Numeric value of a digit run (field names that are positional indices). -/
def digitsToNat (l : List Char) : Nat :=
  l.foldl (fun acc c => acc * 10 + (c.toNat - '0'.toNat)) 0

/--
Character-level core of Python `str.format`.  `fuel` only bounds the
recursion; every step consumes at least one character of the template, so
any fuel of at least the template's length never hits the fuel branch (the
exported `pyFormat` passes length + 1).
-/
def formatCore (args : List PyVal) : Nat → List Char → Except PyErr (List Char)
  | _, [] => Except.ok []
  | 0, _ :: _ => Except.error (.valueError "format model: fuel exhausted")
  | fuel + 1, c :: cs =>
    if c = '\x7b' then
      match cs with
      | [] => Except.error (.valueError "Single '\x7b' encountered in format string")
      | c2 :: rest =>
        if c2 = '\x7b' then
          (formatCore args fuel rest).map (fun out => '\x7b' :: out)
        else
          let p := readFieldName cs
          match p.2 with
          | [] => Except.error (.valueError "expected '\x7d' before end of string")
          | d :: rest2 =>
            if p.1 ≠ [] ∧ p.1.all Char.isDigit then
              if d = '\x7d' then
                match args.get? (digitsToNat p.1) with
                | some v =>
                    (formatCore args fuel rest2).map
                      (fun out => (pyStr v).data ++ out)
                | Option.none =>
                    Except.error (.indexError "tuple index out of range")
              else
                -- a positional field with a conversion or format spec;
                -- no embedded call site has one (their only non-plain field
                -- names are non-numeric and error in the branch below)
                Except.error (.valueError "format model: spec on positional field")
            else
              -- CPython resolves the field before touching any spec: a
              -- non-numeric name is a keyword lookup, and no call site
              -- passes keyword arguments, so this raises KeyError.
              Except.error (.keyError (String.mk p.1))
    else if c = '\x7d' then
      match cs with
      | c2 :: rest =>
        if c2 = '\x7d' then (formatCore args fuel rest).map (fun out => '\x7d' :: out)
        else Except.error (.valueError "Single '\x7d' encountered in format string")
      | [] => Except.error (.valueError "Single '\x7d' encountered in format string")
    else
      (formatCore args fuel cs).map (fun out => c :: out)

/-- Python `template.format(*args)` at the embedded call sites. -/
def pyFormat (template : String) (args : List PyVal) : Except PyErr String :=
  (formatCore args (template.data.length + 1) template.data).map String.mk

/-- `urlparse.urljoin` as used by every call site (base ends in '/', the
second argument is a plain relative path). -/
def urljoin (base rel : String) : String :=
  base ++ rel

inductive Verb where
  | GET
  | POST
  | PATCH
  | PUT
  | DELETE

/-- A request descriptor handed to the transport: HTTP verb, absolute URL
(query string included, exactly as the source embeds it in the URL), and
optional JSON body. -/
structure Request where
  verb : Verb
  url : String
  body : Option PyVal

/-- The transport (`requests.<verb>(url, auth=..., json=...).json()`):
returns the decoded response document or raises a transport failure. -/
def Transport : Type := Request → Except PyErr PyVal

/-- The attributes of a `PingMeClient` instance: `url` (base URL with the
API version prefix), `username`, `api_key`, and the `user` profile document
assigned by `__init__`. -/
structure Client where
  url : String
  username : PyVal
  api_key : PyVal
  user : PyVal

/-- Outcome of one public operation: the requests issued (in order), the
value returned or error raised, and the post-state of the client object. -/
structure OpOutcome where
  trace : List Request
  result : Except PyErr PyVal
  self : Client

/-- Packages an operation body with the client post-state.  No method of
the source assigns to any `self` attribute (the only attribute assignments
in the class are the four in `__init__`), so every operation's post-state
is its pre-state. -/
def mkOp (c : Client) (r : List Request × Except PyErr PyVal) : OpOutcome :=
  ⟨r.1, r.2, c⟩

/--
`PingMeClient.get_hosts` (lines 63-83):

  self.__test_parameter_for_string(group_id, 'group_id')
  self.__test_parameter_for_int(items_per_page, 'items_per_page')
  self.__test_parameter_for_int(page_num, 'page_num')
  url = urljoin(self.url, 'groups/\x7b0\x7d/hosts?itemsPerPage=\x7b1\x7d&pageNum\x7b2\x7d'
                .format(group_id, items_per_page, page_num))
  result = self.__get(url)

Note the source template writes `pageNum\x7b2\x7d` with no '=' between the
name and the field.
-/
def get_hosts (c : Client) (t : Transport)
    (group_id page_num items_per_page : PyVal) : OpOutcome :=
  mkOp c (
    match test_parameter_for_string group_id "group_id" with
    | Except.error e => ([], Except.error e)
    | Except.ok _ =>
    match test_parameter_for_int items_per_page "items_per_page" with
    | Except.error e => ([], Except.error e)
    | Except.ok _ =>
    match test_parameter_for_int page_num "page_num" with
    | Except.error e => ([], Except.error e)
    | Except.ok _ =>
    match pyFormat "groups/{0}/hosts?itemsPerPage={1}&pageNum{2}"
        [group_id, items_per_page, page_num] with
    | Except.error e => ([], Except.error e)
    | Except.ok rel =>
      let req : Request := ⟨Verb.GET, urljoin c.url rel, Option.none⟩
      ([req], t req))

/--
`PingMeClient.get_host` (lines 114-130):

  url = urljoin(self.url, 'groups/\x7b0\x7d/hosts\x7b1\x7d'.format(group_id, host_id))

Note the missing '/' between `hosts` and the host id in the source template.
-/
def get_host (c : Client) (t : Transport) (group_id host_id : PyVal) : OpOutcome :=
  mkOp c (
    match test_parameter_for_string group_id "group_id" with
    | Except.error e => ([], Except.error e)
    | Except.ok _ =>
    match test_parameter_for_string host_id "host_id" with
    | Except.error e => ([], Except.error e)
    | Except.ok _ =>
    match pyFormat "groups/{0}/hosts{1}" [group_id, host_id] with
    | Except.error e => ([], Except.error e)
    | Except.ok rel =>
      let req : Request := ⟨Verb.GET, urljoin c.url rel, Option.none⟩
      ([req], t req))

/-- `PingMeClient.get_host_by_hostname_and_port` (lines 154-171). -/
def get_host_by_hostname_and_port (c : Client) (t : Transport)
    (group_id host_name port : PyVal) : OpOutcome :=
  mkOp c (
    match test_parameter_for_string group_id "group_id" with
    | Except.error e => ([], Except.error e)
    | Except.ok _ =>
    match test_parameter_for_string host_name "host_name" with
    | Except.error e => ([], Except.error e)
    | Except.ok _ =>
    match test_parameter_for_int port "port" with
    | Except.error e => ([], Except.error e)
    | Except.ok _ =>
    match pyFormat "groups/{0}/hosts/byName/{1}:{2}" [group_id, host_name, port] with
    | Except.error e => ([], Except.error e)
    | Except.ok rel =>
      let req : Request := ⟨Verb.GET, urljoin c.url rel, Option.none⟩
      ([req], t req))

/--
`PingMeClient.create_host` (lines 174-207): validates `group_id`, the host
dictionary, `host['hostname']`, `host['port']`; then, discriminating on
`host.get('authMechanismName', None)`, applies the MONGODB_CR string checks
or the MONGODB_X509 `__test_parameter_is_value` checks; finally POSTs the
host document to `groups/\x7b0\x7d/hosts`.
-/
def create_host (c : Client) (t : Transport) (group_id host : PyVal) : OpOutcome :=
  mkOp c (
    match test_parameter_for_string group_id "group_id" with
    | Except.error e => ([], Except.error e)
    | Except.ok _ =>
    match test_parameter_for_dictionary host "host" with
    | Except.error e => ([], Except.error e)
    | Except.ok _ =>
    match pyGetItem host "hostname" with
    | Except.error e => ([], Except.error e)
    | Except.ok hn =>
    match test_parameter_for_string hn "host.hostname" with
    | Except.error e => ([], Except.error e)
    | Except.ok _ =>
    match pyGetItem host "port" with
    | Except.error e => ([], Except.error e)
    | Except.ok pt =>
    match test_parameter_for_int pt "host.port" with
    | Except.error e => ([], Except.error e)
    | Except.ok _ =>
    match pyDictGet host "authMechanismName" PyVal.none with
    | Except.error e => ([], Except.error e)
    | Except.ok mech =>
    match (if pyEqStr mech "MONGODB_CR" then
        match pyGetItem host "username" with
        | Except.error e => Except.error e
        | Except.ok un =>
        match test_parameter_for_string un "host.username" with
        | Except.error e => Except.error e
        | Except.ok _ =>
        match pyGetItem host "password" with
        | Except.error e => Except.error e
        | Except.ok pw => test_parameter_for_string pw "host.password"
      else Except.ok ()) with
    | Except.error e => ([], Except.error e)
    | Except.ok _ =>
    match (if pyEqStr mech "MONGODB_X509" then
        match pyGetItem host "username" with
        | Except.error e => Except.error e
        | Except.ok un =>
        match test_parameter_is_value un "host.username" PyVal.none with
        | Except.error e => Except.error e
        | Except.ok _ =>
        match pyGetItem host "password" with
        | Except.error e => Except.error e
        | Except.ok pw =>
        match test_parameter_is_value pw "host.password" PyVal.none with
        | Except.error e => Except.error e
        | Except.ok _ =>
        match pyGetItem host "sslEnabled" with
        | Except.error e => Except.error e
        | Except.ok ssl => test_parameter_is_value ssl "host.sslEnabled" (PyVal.bool true)
      else Except.ok ()) with
    | Except.error e => ([], Except.error e)
    | Except.ok _ =>
    match pyFormat "groups/{0}/hosts" [group_id] with
    | Except.error e => ([], Except.error e)
    | Except.ok rel =>
      let req : Request := ⟨Verb.POST, urljoin c.url rel, some host⟩
      ([req], t req))

/-- `PingMeClient.get_monitoring_agents` (lines 1140-1153): GET
`groups/\x7b0\x7d/agents/\x7b1\x7d` with the literal category `MONITORING`. -/
def get_monitoring_agents (c : Client) (t : Transport) (group_id : PyVal) : OpOutcome :=
  mkOp c (
    match test_parameter_for_string group_id "group_id" with
    | Except.error e => ([], Except.error e)
    | Except.ok _ =>
    match pyFormat "groups/{0}/agents/{1}" [group_id, PyVal.str "MONITORING"] with
    | Except.error e => ([], Except.error e)
    | Except.ok rel =>
      let req : Request := ⟨Verb.GET, urljoin c.url rel, Option.none⟩
      ([req], t req))

/-- `PingMeClient.get_backup_agents` (lines 1155-1168). -/
def get_backup_agents (c : Client) (t : Transport) (group_id : PyVal) : OpOutcome :=
  mkOp c (
    match test_parameter_for_string group_id "group_id" with
    | Except.error e => ([], Except.error e)
    | Except.ok _ =>
    match pyFormat "groups/{0}/agents/{1}" [group_id, PyVal.str "BACKUP"] with
    | Except.error e => ([], Except.error e)
    | Except.ok rel =>
      let req : Request := ⟨Verb.GET, urljoin c.url rel, Option.none⟩
      ([req], t req))

/-- `PingMeClient.get_automation_gents` (lines 1170-1183; the name carries
the source's typo). -/
def get_automation_gents (c : Client) (t : Transport) (group_id : PyVal) : OpOutcome :=
  mkOp c (
    match test_parameter_for_string group_id "group_id" with
    | Except.error e => ([], Except.error e)
    | Except.ok _ =>
    match pyFormat "groups/{0}/agents/{1}" [group_id, PyVal.str "AUTOMATION"] with
    | Except.error e => ([], Except.error e)
    | Except.ok rel =>
      let req : Request := ⟨Verb.GET, urljoin c.url rel, Option.none⟩
      ([req], t req))

/--
`PingMeClient.get_agents` (lines 1125-1138):

  self.__test_parameter_for_string(group_id, 'group_id')
  agents = self.get_monitoring_agents(group_id).get('results')
  agents += self.get_backup_agents(group_id).get('results')
  agents += self.get_automation_gents(group_id).get('results')
  return agents

Any exception from a sub-call propagates; requests already issued stay in
the trace.
-/
def get_agents (c : Client) (t : Transport) (group_id : PyVal) : OpOutcome :=
  mkOp c (
    match test_parameter_for_string group_id "group_id" with
    | Except.error e => ([], Except.error e)
    | Except.ok _ =>
    let m := get_monitoring_agents c t group_id
    match m.result with
    | Except.error e => (m.trace, Except.error e)
    | Except.ok mres =>
    match pyDictGet mres "results" PyVal.none with
    | Except.error e => (m.trace, Except.error e)
    | Except.ok agents0 =>
    let b := get_backup_agents c t group_id
    match b.result with
    | Except.error e => (m.trace ++ b.trace, Except.error e)
    | Except.ok bres =>
    match pyDictGet bres "results" PyVal.none with
    | Except.error e => (m.trace ++ b.trace, Except.error e)
    | Except.ok badd =>
    match pyIAdd agents0 badd with
    | Except.error e => (m.trace ++ b.trace, Except.error e)
    | Except.ok agents1 =>
    let a := get_automation_gents c t group_id
    match a.result with
    | Except.error e => (m.trace ++ b.trace ++ a.trace, Except.error e)
    | Except.ok ares =>
    match pyDictGet ares "results" PyVal.none with
    | Except.error e => (m.trace ++ b.trace ++ a.trace, Except.error e)
    | Except.ok aadd =>
    match pyIAdd agents1 aadd with
    | Except.error e => (m.trace ++ b.trace ++ a.trace, Except.error e)
    | Except.ok agents2 => (m.trace ++ b.trace ++ a.trace, Except.ok agents2))

/-- The body of `PingMeClient.get_metrics` (lines 1189-1204) as it would
run undecorated: GET `groups/\x7b0\x7d/hosts/\x7b1\x7d/metrics`.  In the
source this def is wrapped by the `@deprecated` decorator, whose
(mis)application is modelled separately below. -/
def get_metrics_body (c : Client) (t : Transport) (group_id host_id : PyVal) : OpOutcome :=
  mkOp c (
    match test_parameter_for_string group_id "group_id" with
    | Except.error e => ([], Except.error e)
    | Except.ok _ =>
    match test_parameter_for_string host_id "host_id" with
    | Except.error e => ([], Except.error e)
    | Except.ok _ =>
    match pyFormat "groups/{0}/hosts/{1}/metrics" [group_id, host_id] with
    | Except.error e => ([], Except.error e)
    | Except.ok rel =>
      let req : Request := ⟨Verb.GET, urljoin c.url rel, Option.none⟩
      ([req], t req))

/-- `PingMeClient.get_disk_partitions` (lines 280-294).  The docstring says
"Retrieves the disks and disk partitions", but the body sends the request
through `self.__delete(url)`. -/
def get_disk_partitions (c : Client) (t : Transport) (group_id host_id : PyVal) : OpOutcome :=
  mkOp c (
    match test_parameter_for_string group_id "group_id" with
    | Except.error e => ([], Except.error e)
    | Except.ok _ =>
    match test_parameter_for_string host_id "host_id" with
    | Except.error e => ([], Except.error e)
    | Except.ok _ =>
    match pyFormat "groups/{0}/hosts/{1}/disks" [group_id, host_id] with
    | Except.error e => ([], Except.error e)
    | Except.ok rel =>
      let req : Request := ⟨Verb.DELETE, urljoin c.url rel, Option.none⟩
      ([req], t req))

/-- `PingMeClient.get_disk_partition` (lines 297-314): also sends via
`self.__delete(url)`. -/
def get_disk_partition (c : Client) (t : Transport)
    (group_id host_id partition_name : PyVal) : OpOutcome :=
  mkOp c (
    match test_parameter_for_string group_id "group_id" with
    | Except.error e => ([], Except.error e)
    | Except.ok _ =>
    match test_parameter_for_string host_id "host_id" with
    | Except.error e => ([], Except.error e)
    | Except.ok _ =>
    match test_parameter_for_string partition_name "partition_name" with
    | Except.error e => ([], Except.error e)
    | Except.ok _ =>
    match pyFormat "groups/{0}/hosts/{1}/disks/{2}" [group_id, host_id, partition_name] with
    | Except.error e => ([], Except.error e)
    | Except.ok rel =>
      let req : Request := ⟨Verb.DELETE, urljoin c.url rel, Option.none⟩
      ([req], t req))

/-- `PingMeClient.get_databases` (lines 320-334): also sends via
`self.__delete(url)`. -/
def get_databases (c : Client) (t : Transport) (group_id host_id : PyVal) : OpOutcome :=
  mkOp c (
    match test_parameter_for_string group_id "group_id" with
    | Except.error e => ([], Except.error e)
    | Except.ok _ =>
    match test_parameter_for_string host_id "host_id" with
    | Except.error e => ([], Except.error e)
    | Except.ok _ =>
    match pyFormat "groups/{0}/hosts/{1}/databases" [group_id, host_id] with
    | Except.error e => ([], Except.error e)
    | Except.ok rel =>
      let req : Request := ⟨Verb.DELETE, urljoin c.url rel, Option.none⟩
      ([req], t req))

/-- `PingMeClient.get_single_database` (lines 337-354): also sends via
`self.__delete(url)`. -/
def get_single_database (c : Client) (t : Transport)
    (group_id host_id database_name : PyVal) : OpOutcome :=
  mkOp c (
    match test_parameter_for_string group_id "group_id" with
    | Except.error e => ([], Except.error e)
    | Except.ok _ =>
    match test_parameter_for_string host_id "host_id" with
    | Except.error e => ([], Except.error e)
    | Except.ok _ =>
    match test_parameter_for_string database_name "database_name" with
    | Except.error e => ([], Except.error e)
    | Except.ok _ =>
    match pyFormat "groups/{0}/hosts/{1}/databases/{2}" [group_id, host_id, database_name] with
    | Except.error e => ([], Except.error e)
    | Except.ok rel =>
      let req : Request := ⟨Verb.DELETE, urljoin c.url rel, Option.none⟩
      ([req], t req))

/--
`PingMeClient.create_group` (lines 1320-1333):

  self.__test_parameter_for_string(group_name, 'group_name')
  url = urljoin(self.url, 'groups/')
  result = self.__post(url, ' \x7b "name" : "\x7b0\x7d" \x7d'.format(group_name))

The POST body argument is evaluated before `__post` is entered, so the
`.format` call runs first; its template's first replacement field opens at
the outer `\x7b` and carries the non-numeric field name ` "name" `.
-/
def create_group (c : Client) (t : Transport) (group_name : PyVal) : OpOutcome :=
  mkOp c (
    match test_parameter_for_string group_name "group_name" with
    | Except.error e => ([], Except.error e)
    | Except.ok _ =>
    let url := urljoin c.url "groups/"
    match pyFormat " \x7b \"name\" : \"{0}\" \x7d" [group_name] with
    | Except.error e => ([], Except.error e)
    | Except.ok body =>
      let req : Request := ⟨Verb.POST, url, some (PyVal.str body)⟩
      ([req], t req))

/-- `PingMeClient.get_user_by_name` (lines 1422-1434): GET
`users/byName/\x7b0\x7d`. -/
def get_user_by_name (c : Client) (t : Transport) (user_name : PyVal) : OpOutcome :=
  mkOp c (
    match test_parameter_for_string user_name "user_name" with
    | Except.error e => ([], Except.error e)
    | Except.ok _ =>
    match pyFormat "users/byName/{0}" [user_name] with
    | Except.error e => ([], Except.error e)
    | Except.ok rel =>
      let req : Request := ⟨Verb.GET, urljoin c.url rel, Option.none⟩
      ([req], t req))

/-- `PingMeClient.get_whitelist` (lines 1926-1934): GET
`users/\x7b0\x7d/whitelist` for `self.user['id']`, with no parameter
validation and no further profile resolution. -/
def get_whitelist (c : Client) (t : Transport) : OpOutcome :=
  mkOp c (
    match pyGetItem c.user "id" with
    | Except.error e => ([], Except.error e)
    | Except.ok uid =>
    match pyFormat "users/{0}/whitelist" [uid] with
    | Except.error e => ([], Except.error e)
    | Except.ok rel =>
      let req : Request := ⟨Verb.GET, urljoin c.url rel, Option.none⟩
      ([req], t req))

/-- Outcome of `PingMeClient.__init__`: the requests it issues and either
the constructed instance or the exception that escaped the constructor. -/
structure InitOutcome where
  trace : List Request
  result : Except PyErr Client

/--
`PingMeClient.__init__` (lines 40-58):

  if username is None: raise Exception("username cannot be None.")
  if api_key is None: raise Exception("api_key cannot be None.")
  if base_url is None: raise Exception("base_url cannot be None.")
  self.username = username
  self.api_key = api_key
  self.url = urljoin(base_url, 'api/public/v1.0/')
  self.user = self.get_user_by_name(self.username)

The last statement resolves the calling user's profile eagerly, inside the
constructor, and memoizes it in `self.user` (which starts as the class
attribute None).  The non-string `base_url` branch is the TypeError
`urljoin` would raise on a non-string argument; every claim instantiates it
with a string.
-/
def initClient (t : Transport) (username api_key base_url : PyVal) : InitOutcome :=
  match username with
  | PyVal.none => ⟨[], Except.error (.exn "username cannot be None.")⟩
  | _ =>
  match api_key with
  | PyVal.none => ⟨[], Except.error (.exn "api_key cannot be None.")⟩
  | _ =>
  match base_url with
  | PyVal.none => ⟨[], Except.error (.exn "base_url cannot be None.")⟩
  | PyVal.str b =>
    let partial_client : Client := ⟨urljoin b "api/public/v1.0/", username, api_key, PyVal.none⟩
    let o := get_user_by_name partial_client t username
    match o.result with
    | Except.error e => ⟨o.trace, Except.error e⟩
    | Except.ok u => ⟨o.trace, Except.ok ⟨partial_client.url, username, api_key, u⟩⟩
  | _ => ⟨[], Except.error (.typeError "urljoin expects string arguments")⟩

/-- Arity data of a Python function: its name and number of required
positional parameters (no defaults are involved at the modelled sites). -/
structure PyFunc where
  name : String
  nParams : Nat

/-- Python call arity check: calling a function with a number of positional
arguments different from its required parameter count raises TypeError with
the Python 2 message. -/
def pyCallArity (f : PyFunc) (nArgs : Nat) : Except PyErr Unit :=
  if nArgs = f.nParams then Except.ok ()
  else Except.error (.typeError
    (f.name ++ "() takes exactly " ++ toString f.nParams ++ " arguments (" ++
     toString nArgs ++ " given)"))

/-- The module-level `deprecated` decorator (lines 14-29) is declared with
two required parameters: `def deprecated(func, new_func_name)`. -/
def deprecatedFunc : PyFunc := ⟨"deprecated", 2⟩

/-- Python's decorator sugar `@deprecated` above `def get_metrics(...)`
(line 1188) applies `deprecated` to exactly one argument, the function
being decorated.  This call is the moment the class body is executed, i.e.
module import. -/
def decorateWithDeprecated : Except PyErr Unit := pyCallArity deprecatedFunc 1

/-- `get_metrics` as a Python callable: `def get_metrics(self, group_id,
host_id)` has three required parameters. -/
def getMetricsFunc : PyFunc := ⟨"get_metrics", 3⟩

/-- Inside `deprecated`'s body (lines 19-29), `new_func` is immediately
invoked as `new_func(new_func_name)`, binding its first parameter and
leaving `*args` empty, so the wrapped call `func(*args, **kwargs)` invokes
the decorated function with zero arguments. -/
def deprecatedInnerCall (f : PyFunc) : Except PyErr Unit := pyCallArity f 0

/-- Base URL of a client constructed against the default Cloud Manager
endpoint: 'https://cloud.mongodb.com/' joined with the version prefix. -/
def testBaseUrl : String := "https://cloud.mongodb.com/api/public/v1.0/"

/-- A constructed client fixture (profile already resolved, as `__init__`
leaves it). -/
def testClient : Client :=
  ⟨testBaseUrl, PyVal.str "u", PyVal.str "k", PyVal.dict [("id", PyVal.str "uid1")]⟩

/-- A transport double that answers every request with a fixed document. -/
def okT : Transport := fun _ => Except.ok (PyVal.dict [("ok", PyVal.bool true)])

/-- The spec's MONGODB_X509 host document:
`\x7b"hostname":"h","port":27017,"authMechanismName":"MONGODB_X509",
"username":None,"password":None,"sslEnabled":True\x7d`. -/
def x509Host : PyVal := PyVal.dict
  [("hostname", PyVal.str "h"), ("port", PyVal.int 27017),
   ("authMechanismName", PyVal.str "MONGODB_X509"), ("username", PyVal.none),
   ("password", PyVal.none), ("sslEnabled", PyVal.bool true)]

/-- The same host document with `"username":"bob"` set. -/
def x509HostBob : PyVal := PyVal.dict
  [("hostname", PyVal.str "h"), ("port", PyVal.int 27017),
   ("authMechanismName", PyVal.str "MONGODB_X509"), ("username", PyVal.str "bob"),
   ("password", PyVal.none), ("sslEnabled", PyVal.bool true)]

/-- Transport double for the composite agents call: 2 monitoring, 3 backup,
1 automation agent documents for group g1. -/
def agentsTransport : Transport := fun r =>
  if r.url = "https://cloud.mongodb.com/api/public/v1.0/groups/g1/agents/MONITORING" then
    Except.ok (PyVal.dict [("results", PyVal.list [PyVal.str "m1", PyVal.str "m2"])])
  else if r.url = "https://cloud.mongodb.com/api/public/v1.0/groups/g1/agents/BACKUP" then
    Except.ok (PyVal.dict
      [("results", PyVal.list [PyVal.str "b1", PyVal.str "b2", PyVal.str "b3"])])
  else if r.url = "https://cloud.mongodb.com/api/public/v1.0/groups/g1/agents/AUTOMATION" then
    Except.ok (PyVal.dict [("results", PyVal.list [PyVal.str "a1"])])
  else Except.error (PyErr.transportFailure "unexpected request")

/-- The same transport double, except the backup sub-call raises a
transport failure. -/
def agentsBackupFailT : Transport := fun r =>
  if r.url = "https://cloud.mongodb.com/api/public/v1.0/groups/g1/agents/BACKUP" then
    Except.error (PyErr.transportFailure "connection refused")
  else agentsTransport r

/-- A user profile document as returned by `users/byName/...`. -/
def userDoc : PyVal := PyVal.dict [("id", PyVal.str "uid1")]

/-- Transport double for construction: serves the profile lookup for user
`u` and fails anything else. -/
def profileT : Transport := fun r =>
  if r.url = "https://cloud.mongodb.com/api/public/v1.0/users/byName/u" then
    Except.ok userDoc
  else Except.error (PyErr.transportFailure "unexpected request")

/-- The profile-resolution request `__init__` issues for base URL `b` and
username `u`. -/
def profileRequest (b u : String) : Request :=
  ⟨Verb.GET, (b ++ "api/public/v1.0/") ++ ("users/byName/" ++ u), Option.none⟩

/-- A single-page hosts response document. -/
def pageDoc : PyVal := PyVal.dict
  [("results", PyVal.list [PyVal.str "h1"]), ("totalCount", PyVal.int 3)]

/-- Transport double that answers every request with `pageDoc`. -/
def pageT : Transport := fun _ => Except.ok pageDoc

/-- Helper: `pyFormat` on the `users/byName/\x7b0\x7d` template with a string
argument produces the joined path (the template ends at the field, so the
spliced argument picks up an empty tail). -/
theorem pyFormat_users_byName (u : String) :
    pyFormat "users/byName/{0}" [PyVal.str u] = Except.ok ("users/byName/" ++ u) :=
  congrArg
    (fun l => Except.ok (String.mk
      ('u' :: 's' :: 'e' :: 'r' :: 's' :: '/' :: 'b' :: 'y' :: 'N' :: 'a' :: 'm' :: 'e' :: '/' :: l)))
    (List.append_nil u.data)

/-- C1: the spec requires every identifier argument that is not non-empty
text (None, empty, all-whitespace, non-string) to raise InvalidArgument
naming the parameter with no request sent.  The code's `__is_string`
accepts any string, the empty and all-whitespace strings included, and also
None, so `get_hosts` with such identifiers validates successfully, issues
its GET request (with the bad value interpolated into the path), and
returns the transport's answer. -/
theorem C1_invalid_identifier_reaches_transport :
    (get_hosts testClient okT (PyVal.str "") (PyVal.int 1) (PyVal.int 100)).trace =
      [⟨Verb.GET,
        "https://cloud.mongodb.com/api/public/v1.0/groups//hosts?itemsPerPage=100&pageNum1",
        Option.none⟩] ∧
    (get_hosts testClient okT (PyVal.str "") (PyVal.int 1) (PyVal.int 100)).result =
      Except.ok (PyVal.dict [("ok", PyVal.bool true)]) ∧
    (get_hosts testClient okT PyVal.none (PyVal.int 1) (PyVal.int 100)).trace =
      [⟨Verb.GET,
        "https://cloud.mongodb.com/api/public/v1.0/groups/None/hosts?itemsPerPage=100&pageNum1",
        Option.none⟩] ∧
    (get_hosts testClient okT (PyVal.str "   ") (PyVal.int 1) (PyVal.int 100)).trace =
      [⟨Verb.GET,
        "https://cloud.mongodb.com/api/public/v1.0/groups/   /hosts?itemsPerPage=100&pageNum1",
        Option.none⟩] :=
  ⟨rfl, rfl, rfl, rfl⟩

/-- C3: `get_host("g1","h1")` builds its path from the template
`groups/\x7b0\x7d/hosts\x7b1\x7d`, which lacks the '/' before the host id, so the
issued GET goes to `groups/g1/hostsh1` instead of the documented
`groups/g1/hosts/h1`; `get_host_by_hostname_and_port` does follow the
documented `groups/g1/hosts/byName/db.example.com:27017` convention. -/
theorem C3_get_host_path_evaluation :
    (get_host testClient okT (PyVal.str "g1") (PyVal.str "h1")).trace =
      [⟨Verb.GET, "https://cloud.mongodb.com/api/public/v1.0/groups/g1/hostsh1",
        Option.none⟩] ∧
    (get_host_by_hostname_and_port testClient okT (PyVal.str "g1")
        (PyVal.str "db.example.com") (PyVal.int 27017)).trace =
      [⟨Verb.GET,
        "https://cloud.mongodb.com/api/public/v1.0/groups/g1/hosts/byName/db.example.com:27017",
        Option.none⟩] :=
  ⟨rfl, rfl⟩

/-- C4: the spec's valid MONGODB_X509 host document (username/password None,
sslEnabled True) does not pass `create_host`'s validation: the
`__test_parameter_is_value` helper ignores its expected-value argument and
raises unless the parameter is the literal True, so the call raises the
InvalidArgument exception naming host.username before any request is
issued; the variant with username "bob" raises the same way. -/
theorem C4_x509_valid_host_rejected :
    (create_host testClient okT (PyVal.str "g1") x509Host).result =
      Except.error (PyErr.exn "host.username is None, expected value is None.") ∧
    (create_host testClient okT (PyVal.str "g1") x509Host).trace = [] ∧
    (create_host testClient okT (PyVal.str "g1") x509HostBob).result =
      Except.error (PyErr.exn "host.username is bob, expected value is None.") ∧
    (create_host testClient okT (PyVal.str "g1") x509HostBob).trace = [] :=
  ⟨rfl, rfl, rfl, rfl⟩

/-- C5: the `deprecated` decorator takes two required parameters, but the
bare `@deprecated` marking applies it to one argument, so decorating
`get_metrics` raises TypeError when the class body executes; even applied
with both arguments, its body immediately invokes the decorated function
with zero arguments (`get_metrics` requires three).  The undecorated body
itself would be a plain GET of `groups/g1/hosts/h1/metrics`. -/
theorem C5_deprecated_marking_breaks_operation :
    decorateWithDeprecated =
      Except.error (PyErr.typeError "deprecated() takes exactly 2 arguments (1 given)") ∧
    deprecatedInnerCall getMetricsFunc =
      Except.error (PyErr.typeError "get_metrics() takes exactly 3 arguments (0 given)") ∧
    (get_metrics_body testClient okT (PyVal.str "g1") (PyVal.str "h1")).trace =
      [⟨Verb.GET, "https://cloud.mongodb.com/api/public/v1.0/groups/g1/hosts/h1/metrics",
        Option.none⟩] :=
  ⟨rfl, rfl, rfl⟩

/-- C7: the four read operations over databases and disk partitions send
their single request with the DELETE verb (`self.__delete(url)` in each
body), not GET. -/
theorem C7_read_operations_send_delete :
    (get_databases testClient okT (PyVal.str "g1") (PyVal.str "h1")).trace =
      [⟨Verb.DELETE, "https://cloud.mongodb.com/api/public/v1.0/groups/g1/hosts/h1/databases",
        Option.none⟩] ∧
    (get_single_database testClient okT (PyVal.str "g1") (PyVal.str "h1")
        (PyVal.str "db0")).trace =
      [⟨Verb.DELETE,
        "https://cloud.mongodb.com/api/public/v1.0/groups/g1/hosts/h1/databases/db0",
        Option.none⟩] ∧
    (get_disk_partitions testClient okT (PyVal.str "g1") (PyVal.str "h1")).trace =
      [⟨Verb.DELETE, "https://cloud.mongodb.com/api/public/v1.0/groups/g1/hosts/h1/disks",
        Option.none⟩] ∧
    (get_disk_partition testClient okT (PyVal.str "g1") (PyVal.str "h1")
        (PyVal.str "p0")).trace =
      [⟨Verb.DELETE, "https://cloud.mongodb.com/api/public/v1.0/groups/g1/hosts/h1/disks/p0",
        Option.none⟩] :=
  ⟨rfl, rfl, rfl, rfl⟩

/-- C8: `get_hosts("g1", page_num=2, items_per_page=50)` issues exactly one
GET and returns the transport's single-page document unchanged, but its
query string is `itemsPerPage=50&pageNum2`: the template writes `pageNum`
immediately followed by the field, with no '=', so the page number is not
encoded as a `pageNum=2` parameter.  The Python-default arguments (page 1,
100 items) produce `itemsPerPage=100&pageNum1` the same way. -/
theorem C8_single_page_request_evaluation :
    (get_hosts testClient pageT (PyVal.str "g1") (PyVal.int 2) (PyVal.int 50)).trace =
      [⟨Verb.GET,
        "https://cloud.mongodb.com/api/public/v1.0/groups/g1/hosts?itemsPerPage=50&pageNum2",
        Option.none⟩] ∧
    (get_hosts testClient pageT (PyVal.str "g1") (PyVal.int 2) (PyVal.int 50)).result =
      Except.ok pageDoc ∧
    (get_hosts testClient pageT (PyVal.str "g1") (PyVal.int 1) (PyVal.int 100)).trace =
      [⟨Verb.GET,
        "https://cloud.mongodb.com/api/public/v1.0/groups/g1/hosts?itemsPerPage=100&pageNum1",
        Option.none⟩] :=
  ⟨rfl, rfl, rfl⟩

/-- C9: no operation assigns to any client attribute (the only attribute
assignments in the class are the four in `__init__`), so every embedded
operation leaves the client object, and with it the connection identity
(username, api_key, url), exactly as constructed. -/
theorem C9_connection_identity_immutable (c : Client) (t : Transport)
    (v1 v2 v3 : PyVal) :
    (get_hosts c t v1 v2 v3).self = c ∧
    (get_host c t v1 v2).self = c ∧
    (get_host_by_hostname_and_port c t v1 v2 v3).self = c ∧
    (create_host c t v1 v2).self = c ∧
    (get_monitoring_agents c t v1).self = c ∧
    (get_backup_agents c t v1).self = c ∧
    (get_automation_gents c t v1).self = c ∧
    (get_agents c t v1).self = c ∧
    (get_metrics_body c t v1 v2).self = c ∧
    (get_disk_partitions c t v1 v2).self = c ∧
    (get_disk_partition c t v1 v2 v3).self = c ∧
    (get_databases c t v1 v2).self = c ∧
    (get_single_database c t v1 v2 v3).self = c ∧
    (get_user_by_name c t v1).self = c ∧
    (get_whitelist c t).self = c ∧
    (create_group c t v1).self = c :=
  ⟨rfl, rfl, rfl, rfl, rfl, rfl, rfl, rfl, rfl, rfl, rfl, rfl, rfl, rfl, rfl, rfl⟩

/-- C10: for every possible `group_name` value, `create_group` raises
before any request reaches the transport: non-string non-None arguments
raise AttributeError inside the broken string validator, and every value
that survives validation (strings and None) raises KeyError while the POST
body is built, because the body template's literal braces make `.format`
parse ` "name" ` as a keyword replacement field. -/
theorem C10_create_group_always_raises (c : Client) (t : Transport)
    (group_name : PyVal) :
    (create_group c t group_name).trace = [] ∧
    ∃ e, (create_group c t group_name).result = Except.error e := by
  cases group_name with
  | none => exact ⟨rfl, ⟨_, rfl⟩⟩
  | str s => exact ⟨rfl, ⟨_, rfl⟩⟩
  | int n => exact ⟨rfl, ⟨_, rfl⟩⟩
  | bool b => exact ⟨rfl, ⟨_, rfl⟩⟩
  | dict es => exact ⟨rfl, ⟨_, rfl⟩⟩
  | list xs => exact ⟨rfl, ⟨_, rfl⟩⟩

/-- C2: `get_agents` returns the concatenation of the 'results' lists of
the monitoring, backup, and automation sub-calls, in that fixed order, and
propagates any sub-call failure unchanged instead of returning a partial
list. -/
theorem C2_get_agents_aggregation (c : Client) (t : Transport) (gid : PyVal) :
    (∀ dm db da rm rb ra,
      (get_monitoring_agents c t gid).result = Except.ok dm →
      pyDictGet dm "results" PyVal.none = Except.ok (PyVal.list rm) →
      (get_backup_agents c t gid).result = Except.ok db →
      pyDictGet db "results" PyVal.none = Except.ok (PyVal.list rb) →
      (get_automation_gents c t gid).result = Except.ok da →
      pyDictGet da "results" PyVal.none = Except.ok (PyVal.list ra) →
      (get_agents c t gid).result = Except.ok (PyVal.list (rm ++ rb ++ ra))) ∧
    (∀ e, (get_monitoring_agents c t gid).result = Except.error e →
      (get_agents c t gid).result = Except.error e) ∧
    (∀ dm rm e,
      (get_monitoring_agents c t gid).result = Except.ok dm →
      pyDictGet dm "results" PyVal.none = Except.ok (PyVal.list rm) →
      (get_backup_agents c t gid).result = Except.error e →
      (get_agents c t gid).result = Except.error e) ∧
    (∀ dm rm db rb e,
      (get_monitoring_agents c t gid).result = Except.ok dm →
      pyDictGet dm "results" PyVal.none = Except.ok (PyVal.list rm) →
      (get_backup_agents c t gid).result = Except.ok db →
      pyDictGet db "results" PyVal.none = Except.ok (PyVal.list rb) →
      (get_automation_gents c t gid).result = Except.error e →
      (get_agents c t gid).result = Except.error e) := by
  cases hv : test_parameter_for_string gid "group_id" with
  | error e0 =>
    have hm : (get_monitoring_agents c t gid).result = Except.error e0 := by
      simp only [get_monitoring_agents, mkOp, hv]
    refine ⟨?_, ?_, ?_, ?_⟩
    · intro dm db da rm rb ra h1 _ _ _ _ _
      rw [hm] at h1
      exact absurd h1 (by simp)
    · intro e he
      rw [hm] at he
      injection he with he'
      subst he'
      simp only [get_agents, mkOp, hv]
    · intro dm rm e h1 _ _
      rw [hm] at h1
      exact absurd h1 (by simp)
    · intro dm rm db rb e h1 _ _ _ _
      rw [hm] at h1
      exact absurd h1 (by simp)
  | ok u =>
    refine ⟨?_, ?_, ?_, ?_⟩
    · intro dm db da rm rb ra h1 h2 h3 h4 h5 h6
      simp only [get_agents, mkOp, hv, h1, h2, h3, h4, h5, h6, pyIAdd]
    · intro e he
      simp only [get_agents, mkOp, hv, he]
    · intro dm rm e h1 h2 h3
      simp only [get_agents, mkOp, hv, h1, h2, h3, pyIAdd]
    · intro dm rm db rb e h1 h2 h3 h4 h5
      simp only [get_agents, mkOp, hv, h1, h2, h3, h4, h5, pyIAdd]

/-- Witness for C2: against a transport serving 2 monitoring + 3 backup +
1 automation agent documents for g1, `get_agents` returns the 6-element
list in order; with the backup sub-call failing, the same failure
propagates. -/
theorem C2_get_agents_aggregation_witness :
    (get_agents testClient agentsTransport (PyVal.str "g1")).result =
      Except.ok (PyVal.list
        [PyVal.str "m1", PyVal.str "m2", PyVal.str "b1", PyVal.str "b2",
         PyVal.str "b3", PyVal.str "a1"]) ∧
    (get_agents testClient agentsBackupFailT (PyVal.str "g1")).result =
      Except.error (PyErr.transportFailure "connection refused") :=
  ⟨(C2_get_agents_aggregation testClient agentsTransport (PyVal.str "g1")).1
      (PyVal.dict [("results", PyVal.list [PyVal.str "m1", PyVal.str "m2"])])
      (PyVal.dict [("results", PyVal.list [PyVal.str "b1", PyVal.str "b2", PyVal.str "b3"])])
      (PyVal.dict [("results", PyVal.list [PyVal.str "a1"])])
      [PyVal.str "m1", PyVal.str "m2"]
      [PyVal.str "b1", PyVal.str "b2", PyVal.str "b3"]
      [PyVal.str "a1"]
      rfl rfl rfl rfl rfl rfl,
   (C2_get_agents_aggregation testClient agentsBackupFailT (PyVal.str "g1")).2.2.1
      (PyVal.dict [("results", PyVal.list [PyVal.str "m1", PyVal.str "m2"])])
      [PyVal.str "m1", PyVal.str "m2"]
      (PyErr.transportFailure "connection refused")
      rfl rfl rfl⟩

/-- Helper: `get_user_by_name` on a string username issues exactly the
profile GET and returns the transport's answer. -/
theorem get_user_by_name_on_string (c : Client) (t : Transport) (u : String) :
    get_user_by_name c t (PyVal.str u) =
      mkOp c ([⟨Verb.GET, urljoin c.url ("users/byName/" ++ u), Option.none⟩],
        t ⟨Verb.GET, urljoin c.url ("users/byName/" ++ u), Option.none⟩) := by
  unfold get_user_by_name
  rw [pyFormat_users_byName]
  rfl

/-- C6 counterexample: constructing a client with non-null principal,
credential, and endpoint issues a network request from inside the
constructor (the eager `self.user = self.get_user_by_name(self.username)`
on line 58), so the construction trace is not empty. -/
theorem C6_constructor_performs_request :
    (initClient profileT (PyVal.str "u") (PyVal.str "k")
        (PyVal.str "https://cloud.mongodb.com/")).trace =
      [⟨Verb.GET, "https://cloud.mongodb.com/api/public/v1.0/users/byName/u",
        Option.none⟩] ∧
    (initClient profileT (PyVal.str "u") (PyVal.str "k")
        (PyVal.str "https://cloud.mongodb.com/")).trace ≠ [] :=
  ⟨rfl, fun h => List.noConfusion h⟩

/-- C6 amended: construction eagerly resolves the calling principal's user
profile: `__init__` issues exactly the one profile GET, memoizes the
returned document in `self.user`, and `get_whitelist` then uses the
memoized profile's id without issuing any further profile request. -/
theorem C6_profile_resolved_eagerly_and_memoized (t : Transport) (u k b : String)
    (udoc uid : PyVal)
    (hp : t (profileRequest b u) = Except.ok udoc)
    (hid : pyGetItem udoc "id" = Except.ok uid) :
    (initClient t (PyVal.str u) (PyVal.str k) (PyVal.str b)).trace =
      [profileRequest b u] ∧
    (initClient t (PyVal.str u) (PyVal.str k) (PyVal.str b)).result =
      Except.ok ⟨b ++ "api/public/v1.0/", PyVal.str u, PyVal.str k, udoc⟩ ∧
    ∀ t2 : Transport,
      (get_whitelist ⟨b ++ "api/public/v1.0/", PyVal.str u, PyVal.str k, udoc⟩ t2).trace =
        [⟨Verb.GET,
          (b ++ "api/public/v1.0/") ++ ("users/" ++ (pyStr uid ++ "/whitelist")),
          Option.none⟩] := by
  have hinit : initClient t (PyVal.str u) (PyVal.str k) (PyVal.str b) =
      ⟨[profileRequest b u],
        Except.ok ⟨b ++ "api/public/v1.0/", PyVal.str u, PyVal.str k, udoc⟩⟩ := by
    have hp' : t ⟨Verb.GET, b ++ "api/public/v1.0/" ++ ("users/byName/" ++ u),
        Option.none⟩ = Except.ok udoc := hp
    unfold initClient
    simp only [get_user_by_name_on_string, mkOp, urljoin]
    rw [hp']
    rfl
  refine ⟨by rw [hinit], by rw [hinit], ?_⟩
  intro t2
  unfold get_whitelist
  rw [show pyGetItem (Client.mk (b ++ "api/public/v1.0/") (PyVal.str u) (PyVal.str k) udoc).user "id" =
        Except.ok uid from hid]
  rfl

/-- Witness for C6's amended statement: against a transport serving the
profile of user `u`, construction resolves and memoizes the profile, and
`get_whitelist` on the constructed client issues only the whitelist GET
for the memoized id. -/
theorem C6_profile_resolved_eagerly_and_memoized_witness :
    (initClient profileT (PyVal.str "u") (PyVal.str "k")
        (PyVal.str "https://cloud.mongodb.com/")).result =
      Except.ok ⟨"https://cloud.mongodb.com/" ++ "api/public/v1.0/",
        PyVal.str "u", PyVal.str "k", userDoc⟩ ∧
    (get_whitelist ⟨"https://cloud.mongodb.com/" ++ "api/public/v1.0/",
        PyVal.str "u", PyVal.str "k", userDoc⟩ okT).trace =
      [⟨Verb.GET,
        ("https://cloud.mongodb.com/" ++ "api/public/v1.0/") ++
          ("users/" ++ (pyStr (PyVal.str "uid1") ++ "/whitelist")),
        Option.none⟩] :=
  ⟨(C6_profile_resolved_eagerly_and_memoized profileT "u" "k"
      "https://cloud.mongodb.com/" userDoc (PyVal.str "uid1") rfl rfl).2.1,
   (C6_profile_resolved_eagerly_and_memoized profileT "u" "k"
      "https://cloud.mongodb.com/" userDoc (PyVal.str "uid1") rfl rfl).2.2 okT⟩

/-- Witness for C9: the invariant instantiated at concrete operations on a
concrete client. -/
theorem C9_connection_identity_immutable_witness :
    (get_hosts testClient okT (PyVal.str "g1") (PyVal.int 1) (PyVal.int 100)).self =
      testClient ∧
    (create_group testClient okT (PyVal.str "g1")).self = testClient :=
  ⟨(C9_connection_identity_immutable testClient okT (PyVal.str "g1") (PyVal.int 1)
      (PyVal.int 100)).1,
   (C9_connection_identity_immutable testClient okT (PyVal.str "g1") (PyVal.int 1)
      (PyVal.int 100)).2.2.2.2.2.2.2.2.2.2.2.2.2.2.2⟩

/-- Witness for C10: `create_group` with a valid non-empty name issues no
request and raises. -/
theorem C10_create_group_always_raises_witness :
    (create_group testClient okT (PyVal.str "App Servers")).trace = [] ∧
    ∃ e, (create_group testClient okT (PyVal.str "App Servers")).result =
      Except.error e :=
  C10_create_group_always_raises testClient okT (PyVal.str "App Servers")
